import Mathlib

/-!
Shallow embedding of `src/clumon/src/cim-provider/ClusterProviderMain.cpp`:
the exported factory function `PegasusCreateProvider`, which compares the
requested provider name case-insensitively against the literal
`"RedHatClusterProvider"` and, on match, heap-allocates a new
`ClusterMonitoring::ClusterProvider`; otherwise it returns the null pointer.

Heap allocation is modelled explicitly: a `Heap` carries the next fresh
allocation identifier and a flag saying whether the allocator succeeds
(a C++ `new` that fails throws `std::bad_alloc`, which the function does
not catch, so in the embedding an allocation failure propagates as an
`Except.error`).
-/

namespace ClusterProviderMain

/-- Allocation state of the process at the time of a call: `nextId` is the
next fresh heap address (every allocated object receives a distinct id),
and `allocOk` says whether the allocator can satisfy a request (a C++
`new` that cannot throws `std::bad_alloc`). -/
structure Heap where
  nextId : Nat
  allocOk : Bool
deriving DecidableEq

/-- Failure of the C++ `new` expression: `std::bad_alloc` escaping the
uncaught allocation in `PegasusCreateProvider`. -/
inductive AllocFailure where
  | badAlloc
deriving DecidableEq

namespace ClusterMonitoring

/-- The externally defined provider type `ClusterMonitoring::ClusterProvider`,
default-constructed by the factory. Its internals are out of scope; the
embedding records only the identity of the heap object, so that distinct
allocations are distinguishable. -/
structure ClusterProvider where
  allocId : Nat
deriving DecidableEq

end ClusterMonitoring

/-- The literal provider name recognised by the factory, from line 34 of
`ClusterProviderMain.cpp`. -/
def redHatClusterProviderName : String := "RedHatClusterProvider"

/-- Pegasus `String::equalNoCase`, an external library primitive: locale
independent case-insensitive equality of two strings, modelled by
comparing the character sequences after lowercasing each character. -/
def equalNoCase (s t : String) : Bool :=
  s.data.map Char.toLower == t.data.map Char.toLower

/-- Specification-level case-insensitive string equality, as a proposition:
the two strings agree character by character up to letter casing. -/
def caseInsensitiveEq (s t : String) : Prop :=
  s.data.map Char.toLower = t.data.map Char.toLower

instance (s t : String) : Decidable (caseInsensitiveEq s t) := by
  unfold caseInsensitiveEq
  infer_instance

/-- The C++ expression `new ClusterMonitoring::ClusterProvider()`: on
success it yields a fresh object carrying the next free heap id and bumps
the allocation counter; on allocator failure it throws `std::bad_alloc`. -/
def newClusterProvider (h : Heap) :
    Except AllocFailure (ClusterMonitoring.ClusterProvider × Heap) :=
  if h.allocOk then
    Except.ok (⟨h.nextId⟩, ⟨h.nextId + 1, h.allocOk⟩)
  else
    Except.error AllocFailure.badAlloc

/-- The factory entry point, lines 32 to 40 of `ClusterProviderMain.cpp`:

```cpp
extern "C" PEGASUS_EXPORT Pegasus::CIMProvider*
PegasusCreateProvider(const String &providerName)
\x7b
  if (String::equalNoCase(providerName, "RedHatClusterProvider"))
    \x7b
      return new ClusterMonitoring::ClusterProvider();
    \x7d
  return (0);
\x7d
```

The null-pointer return is `Except.ok (none, h)`; a successful allocation
is `Except.ok (some p, h1)`; an uncaught `std::bad_alloc` is
`Except.error`. The heap is threaded explicitly. -/
def PegasusCreateProvider (providerName : String) (h : Heap) :
    Except AllocFailure (Option ClusterMonitoring.ClusterProvider × Heap) :=
  if equalNoCase providerName redHatClusterProviderName then
    match newClusterProvider h with
    | Except.ok (p, h1) => Except.ok (some p, h1)
    | Except.error e => Except.error e
  else
    Except.ok (none, h)

/-- Variant of the embedding that also threads the value of the
`const String &providerName` reference through the call, returning its
final value alongside the result. The source body only reads the
reference (in the `equalNoCase` call) and never assigns through it. -/
def PegasusCreateProviderRef (providerName : String) (h : Heap) :
    Except AllocFailure (Option ClusterMonitoring.ClusterProvider × Heap) × String :=
  if equalNoCase providerName redHatClusterProviderName then
    match newClusterProvider h with
    | Except.ok (p, h1) => (Except.ok (some p, h1), providerName)
    | Except.error e => (Except.error e, providerName)
  else
    (Except.ok (none, h), providerName)

/-- Observable outcome of a factory call: a provider was created, the null
pointer was returned, or the call aborted with an uncaught exception. -/
inductive Outcome where
  | created
  | absent
  | fatal
deriving DecidableEq

/-- Classifies the result of a factory call into its `Outcome`. -/
def outcomeOf :
    Except AllocFailure (Option ClusterMonitoring.ClusterProvider × Heap) → Outcome
  | Except.ok (some _, _) => Outcome.created
  | Except.ok (none, _) => Outcome.absent
  | Except.error _ => Outcome.fatal

/-- The booleanised library comparison agrees with the specification-level
case-insensitive equality. -/
theorem equalNoCase_eq_true_iff (s t : String) :
    equalNoCase s t = true ↔ caseInsensitiveEq s t := by
  simp [equalNoCase, caseInsensitiveEq]

theorem equalNoCase_eq_false_iff (s t : String) :
    equalNoCase s t = false ↔ ¬ caseInsensitiveEq s t := by
  rw [← equalNoCase_eq_true_iff, Bool.eq_false_iff, Ne, Bool.not_eq_true]

/-- On a matching name with a working allocator, the factory returns the
freshly allocated provider and the heap with the counter bumped. -/
theorem createProvider_match_ok (s : String) (h : Heap)
    (hm : equalNoCase s redHatClusterProviderName = true)
    (hok : h.allocOk = true) :
    PegasusCreateProvider s h =
      Except.ok (some ⟨h.nextId⟩, ⟨h.nextId + 1, h.allocOk⟩) := by
  simp [PegasusCreateProvider, newClusterProvider, hm, hok]

/-- On a matching name with a failing allocator, the `std::bad_alloc`
propagates out of the factory. -/
theorem createProvider_match_fail (s : String) (h : Heap)
    (hm : equalNoCase s redHatClusterProviderName = true)
    (hbad : h.allocOk = false) :
    PegasusCreateProvider s h = Except.error AllocFailure.badAlloc := by
  simp [PegasusCreateProvider, newClusterProvider, hm, hbad]

/-- On a non-matching name the factory returns the null pointer and leaves
the heap untouched, whatever the allocator state. -/
theorem createProvider_nomatch (s : String) (h : Heap)
    (hm : equalNoCase s redHatClusterProviderName = false) :
    PegasusCreateProvider s h = Except.ok (none, h) := by
  simp [PegasusCreateProvider, hm]

/-- C1: with a working allocator, `PegasusCreateProvider` returns a
non-empty, newly allocated provider instance (its id is the fresh heap id)
if and only if the input is case-insensitively equal to the literal
`"RedHatClusterProvider"`, in any letter casing. -/
theorem createProvider_some_iff_match (s : String) (h : Heap)
    (hok : h.allocOk = true) :
    (∃ p h1, PegasusCreateProvider s h = Except.ok (some p, h1) ∧
        p.allocId = h.nextId) ↔
      caseInsensitiveEq s redHatClusterProviderName := by
  constructor
  · rintro ⟨p, h1, hp, -⟩
    by_contra hm
    rw [createProvider_nomatch s h ((equalNoCase_eq_false_iff s _).mpr hm)] at hp
    simp at hp
  · intro hm
    exact ⟨⟨h.nextId⟩, ⟨h.nextId + 1, h.allocOk⟩,
      createProvider_match_ok s h ((equalNoCase_eq_true_iff s _).mpr hm) hok, rfl⟩

theorem createProvider_some_iff_match_witness :
    ((∃ p h1,
        PegasusCreateProvider "redhatclusterprovider" ⟨0, true⟩ =
          Except.ok (some p, h1) ∧ p.allocId = 0) ↔
      caseInsensitiveEq "redhatclusterprovider" redHatClusterProviderName) ∧
    ((∃ p h1,
        PegasusCreateProvider "RedHatCluster" ⟨0, true⟩ =
          Except.ok (some p, h1) ∧ p.allocId = 0) ↔
      caseInsensitiveEq "RedHatCluster" redHatClusterProviderName) :=
  ⟨createProvider_some_iff_match "redhatclusterprovider" ⟨0, true⟩ rfl,
   createProvider_some_iff_match "RedHatCluster" ⟨0, true⟩ rfl⟩

/-- C2: on any input not case-insensitively equal to
`"RedHatClusterProvider"`, the factory returns the null pointer as a
normal `Except.ok` result (not an error), and the heap is untouched. -/
theorem createProvider_none_of_nomatch (s : String) (h : Heap)
    (hm : ¬ caseInsensitiveEq s redHatClusterProviderName) :
    PegasusCreateProvider s h = Except.ok (none, h) :=
  createProvider_nomatch s h ((equalNoCase_eq_false_iff s _).mpr hm)

theorem createProvider_none_of_nomatch_witness :
    PegasusCreateProvider "" ⟨0, true⟩ = Except.ok (none, ⟨0, true⟩) ∧
    PegasusCreateProvider "RedHatCluster" ⟨0, true⟩ =
      Except.ok (none, ⟨0, true⟩) ∧
    PegasusCreateProvider "RedHatClusterProviderX" ⟨0, true⟩ =
      Except.ok (none, ⟨0, true⟩) ∧
    PegasusCreateProvider " RedHatClusterProvider" ⟨0, true⟩ =
      Except.ok (none, ⟨0, true⟩) :=
  ⟨createProvider_none_of_nomatch "" ⟨0, true⟩ (by decide),
   createProvider_none_of_nomatch "RedHatCluster" ⟨0, true⟩ (by decide),
   createProvider_none_of_nomatch "RedHatClusterProviderX" ⟨0, true⟩ (by decide),
   createProvider_none_of_nomatch " RedHatClusterProvider" ⟨0, true⟩ (by decide)⟩

/-- C3: with a working allocator, every call has exactly one of two
outcomes: a freshly allocated provider instance (its id is the fresh heap
id, so it aliases no previously allocated object), or the explicit null
result with the heap untouched. -/
theorem createProvider_two_outcomes (s : String) (h : Heap)
    (hok : h.allocOk = true) :
    (∃ p h1, PegasusCreateProvider s h = Except.ok (some p, h1) ∧
        p.allocId = h.nextId) ∨
      PegasusCreateProvider s h = Except.ok (none, h) := by
  cases hm : equalNoCase s redHatClusterProviderName with
  | true =>
    exact Or.inl ⟨⟨h.nextId⟩, ⟨h.nextId + 1, h.allocOk⟩,
      createProvider_match_ok s h hm hok, rfl⟩
  | false => exact Or.inr (createProvider_nomatch s h hm)

theorem createProvider_two_outcomes_witness :
    ((∃ p h1, PegasusCreateProvider "abc" ⟨5, true⟩ = Except.ok (some p, h1) ∧
        p.allocId = 5) ∨
      PegasusCreateProvider "abc" ⟨5, true⟩ = Except.ok (none, ⟨5, true⟩)) :=
  createProvider_two_outcomes "abc" ⟨5, true⟩ rfl

/-- C4: if the allocator fails on the matching path, the failure
propagates to the caller as the fatal `Except.error AllocFailure.badAlloc`
result; the factory performs no local recovery. -/
theorem createProvider_alloc_failure_propagates (s : String) (h : Heap)
    (hm : caseInsensitiveEq s redHatClusterProviderName)
    (hbad : h.allocOk = false) :
    PegasusCreateProvider s h = Except.error AllocFailure.badAlloc :=
  createProvider_match_fail s h ((equalNoCase_eq_true_iff s _).mpr hm) hbad

theorem createProvider_alloc_failure_propagates_witness :
    PegasusCreateProvider "RedHatClusterProvider" ⟨0, false⟩ =
      Except.error AllocFailure.badAlloc :=
  createProvider_alloc_failure_propagates "RedHatClusterProvider" ⟨0, false⟩
    (by decide) rfl

/-- C5: two successive calls with a matching name allocate two distinct
provider instances: the second call, run on the heap produced by the
first, yields a provider with a different allocation id. -/
theorem createProvider_repeated_calls_distinct (s : String) (h : Heap)
    (hm : caseInsensitiveEq s redHatClusterProviderName)
    (hok : h.allocOk = true) :
    ∃ p1 h1 p2 h2,
      PegasusCreateProvider s h = Except.ok (some p1, h1) ∧
      PegasusCreateProvider s h1 = Except.ok (some p2, h2) ∧
      p1 ≠ p2 := by
  have hm1 := (equalNoCase_eq_true_iff s _).mpr hm
  refine ⟨⟨h.nextId⟩, ⟨h.nextId + 1, h.allocOk⟩, ⟨h.nextId + 1⟩,
    ⟨h.nextId + 2, h.allocOk⟩, createProvider_match_ok s h hm1 hok, ?_, ?_⟩
  · exact createProvider_match_ok s ⟨h.nextId + 1, h.allocOk⟩ hm1 hok
  · intro hEq
    have : h.nextId = h.nextId + 1 := congrArg
      ClusterMonitoring.ClusterProvider.allocId hEq
    omega

theorem createProvider_repeated_calls_distinct_witness :
    ∃ p1 h1 p2 h2,
      PegasusCreateProvider "REDHATCLUSTERPROVIDER" ⟨0, true⟩ =
        Except.ok (some p1, h1) ∧
      PegasusCreateProvider "REDHATCLUSTERPROVIDER" h1 =
        Except.ok (some p2, h2) ∧
      p1 ≠ p2 :=
  createProvider_repeated_calls_distinct "REDHATCLUSTERPROVIDER" ⟨0, true⟩
    (by decide) rfl

/-- C6: calling the factory twice with the same unmatched name yields the
null result both times; the heap after the first call equals the heap
before it, so no hidden state can change the outcome of the second call. -/
theorem createProvider_nomatch_idempotent (s : String) (h : Heap)
    (hm : ¬ caseInsensitiveEq s redHatClusterProviderName) :
    ∃ h1, PegasusCreateProvider s h = Except.ok (none, h1) ∧
      PegasusCreateProvider s h1 = Except.ok (none, h1) := by
  have hm1 := (equalNoCase_eq_false_iff s _).mpr hm
  exact ⟨h, createProvider_nomatch s h hm1, createProvider_nomatch s h hm1⟩

theorem createProvider_nomatch_idempotent_witness :
    ∃ h1, PegasusCreateProvider "NotAProvider" ⟨3, true⟩ =
        Except.ok (none, h1) ∧
      PegasusCreateProvider "NotAProvider" h1 = Except.ok (none, h1) :=
  createProvider_nomatch_idempotent "NotAProvider" ⟨3, true⟩ (by decide)

/-- C7: the factory is a deterministic, stateless dispatch by name: any
two calls with the same input string and the same allocator condition have
the same observable outcome, and the only effect of a call on the heap is
the single allocation of the returned instance (the allocator flag is
unchanged, and the counter is unchanged on the null path and bumped by
exactly one on the creation path). -/
theorem createProvider_pure_dispatch (s : String) (h h2 : Heap)
    (hk : h.allocOk = h2.allocOk) :
    outcomeOf (PegasusCreateProvider s h) =
      outcomeOf (PegasusCreateProvider s h2) ∧
    (∀ r h1, PegasusCreateProvider s h = Except.ok (r, h1) →
      h1.allocOk = h.allocOk ∧
      ((r = none ∧ h1 = h) ∨
        ∃ p, r = some p ∧ h1.nextId = h.nextId + 1)) := by
  cases hm : equalNoCase s redHatClusterProviderName with
  | false =>
    refine ⟨?_, ?_⟩
    · rw [createProvider_nomatch s h hm, createProvider_nomatch s h2 hm]
      rfl
    · intro r h1 hr
      rw [createProvider_nomatch s h hm] at hr
      simp only [Except.ok.injEq, Prod.mk.injEq] at hr
      obtain ⟨hr1, hr2⟩ := hr
      subst hr1 hr2
      exact ⟨rfl, Or.inl ⟨rfl, rfl⟩⟩
  | true =>
    cases hok : h.allocOk with
    | true =>
      have hok2 : h2.allocOk = true := by rw [← hk]; exact hok
      refine ⟨?_, ?_⟩
      · rw [createProvider_match_ok s h hm hok,
          createProvider_match_ok s h2 hm hok2]
        rfl
      · intro r h1 hr
        rw [createProvider_match_ok s h hm hok] at hr
        simp only [Except.ok.injEq, Prod.mk.injEq] at hr
        obtain ⟨hr1, hr2⟩ := hr
        subst hr1 hr2
        exact ⟨hok, Or.inr ⟨⟨h.nextId⟩, rfl, rfl⟩⟩
    | false =>
      have hok2 : h2.allocOk = false := by rw [← hk]; exact hok
      refine ⟨?_, ?_⟩
      · rw [createProvider_match_fail s h hm hok,
          createProvider_match_fail s h2 hm hok2]
      · intro r h1 hr
        rw [createProvider_match_fail s h hm hok] at hr
        exact absurd hr (by simp)

theorem createProvider_pure_dispatch_witness :
    outcomeOf (PegasusCreateProvider "RedHatClusterProvider" ⟨0, true⟩) =
      outcomeOf (PegasusCreateProvider "RedHatClusterProvider" ⟨7, true⟩) ∧
    (∀ r h1,
      PegasusCreateProvider "RedHatClusterProvider" ⟨0, true⟩ =
        Except.ok (r, h1) →
      h1.allocOk = Heap.allocOk ⟨0, true⟩ ∧
      ((r = none ∧ h1 = ⟨0, true⟩) ∨
        ∃ p, r = some p ∧ h1.nextId = Heap.nextId ⟨0, true⟩ + 1)) :=
  createProvider_pure_dispatch "RedHatClusterProvider" ⟨0, true⟩ ⟨7, true⟩ rfl

/-- C8: on the non-matching path the factory performs no allocation at
all, so the call cannot fail even when the allocator would: with the
allocator in the failing state, any unmatched name still yields the
normal null result with the heap untouched. -/
theorem createProvider_nomatch_no_alloc (s : String) (h : Heap)
    (hm : ¬ caseInsensitiveEq s redHatClusterProviderName)
    (_hbad : h.allocOk = false) :
    PegasusCreateProvider s h = Except.ok (none, h) :=
  createProvider_nomatch s h ((equalNoCase_eq_false_iff s _).mpr hm)

theorem createProvider_nomatch_no_alloc_witness :
    PegasusCreateProvider "SomeOtherProvider" ⟨0, false⟩ =
      Except.ok (none, ⟨0, false⟩) :=
  createProvider_nomatch_no_alloc "SomeOtherProvider" ⟨0, false⟩
    (by decide) rfl

/-- C9: the factory never modifies its input: threading the value of the
`const String &providerName` reference through the call returns it
unchanged, for every input string and every heap, and the threaded
variant computes the same result as the factory. -/
theorem createProvider_input_unchanged (s : String) (h : Heap) :
    (PegasusCreateProviderRef s h).2 = s ∧
    (PegasusCreateProviderRef s h).1 = PegasusCreateProvider s h := by
  unfold PegasusCreateProviderRef PegasusCreateProvider
  cases equalNoCase s redHatClusterProviderName
  · exact ⟨rfl, rfl⟩
  · cases newClusterProvider h with
    | ok ph => exact ⟨rfl, rfl⟩
    | error e => exact ⟨rfl, rfl⟩

/-- C10: the constructed provider does not depend on the input name: any
two matching names (for example two letter casings of the literal) given
the same heap produce identical results, hence identically constructed
instances. -/
theorem createProvider_independent_of_name (s1 s2 : String) (h : Heap)
    (hm1 : caseInsensitiveEq s1 redHatClusterProviderName)
    (hm2 : caseInsensitiveEq s2 redHatClusterProviderName) :
    PegasusCreateProvider s1 h = PegasusCreateProvider s2 h := by
  have he1 := (equalNoCase_eq_true_iff s1 _).mpr hm1
  have he2 := (equalNoCase_eq_true_iff s2 _).mpr hm2
  cases hok : h.allocOk with
  | true =>
    rw [createProvider_match_ok s1 h he1 hok,
      createProvider_match_ok s2 h he2 hok]
  | false =>
    rw [createProvider_match_fail s1 h he1 hok,
      createProvider_match_fail s2 h he2 hok]

theorem createProvider_independent_of_name_witness :
    PegasusCreateProvider "redhatclusterprovider" ⟨0, true⟩ =
      PegasusCreateProvider "REDHATCLUSTERPROVIDER" ⟨0, true⟩ :=
  createProvider_independent_of_name "redhatclusterprovider"
    "REDHATCLUSTERPROVIDER" ⟨0, true⟩ (by decide) (by decide)

end ClusterProviderMain
